import Mathlib

/-!
# Verification of the image microservice (`src/app/main.py`)

A shallow embedding of the FastAPI image service: the database table of
`Image` rows and the directory of files become explicit state, each route
handler becomes a pure function threading that state, and raised exceptions
become error values.  Nondeterministic inputs of the real code (the random
filename token, success of the disk write) are passed as parameters.
-/

/-- Decidable equality for `Except`, so results of the embedded operations
can be checked on concrete inputs with `decide`. -/
instance {ε α : Type} [DecidableEq ε] [DecidableEq α] : DecidableEq (Except ε α)
  | .error e, .error f =>
    if h : e = f then .isTrue (congrArg Except.error h)
    else .isFalse (fun c => h (Except.error.inj c))
  | .error _, .ok _ => .isFalse (fun c => Except.noConfusion c)
  | .ok _, .error _ => .isFalse (fun c => Except.noConfusion c)
  | .ok a, .ok b =>
    if h : a = b then .isTrue (congrArg Except.ok h)
    else .isFalse (fun c => h (Except.ok.inj c))

namespace ImageService

/-- A row of the `Image` table (`class Image` in `main.py`).  `id` is the
primary key assigned on insert, `album` groups images, `starred` marks the
album representative, `filepath` is the on-disk location.  Rows created
through the API always carry a filepath, so it is a plain `String` here. -/
structure Image where
  id : Nat
  album : Int
  starred : Bool
  filepath : String
deriving Repr, DecidableEq

/-- The publicly serialized image record (`class ImagePublic`): the fields
of `ImageBase` (`album`, `starred`) plus `id`; no `filepath` field exists. -/
structure ImagePublic where
  album : Int
  starred : Bool
  id : Nat
deriving Repr, DecidableEq

/-- The whole observable server state: the database table in insertion
order, the set of file paths present in the images directory, and the next
primary key the database will assign. -/
structure ServerState where
  db : List Image
  files : List String
  nextId : Nat
deriving Repr, DecidableEq

/-- Constant `IMAGES_DIR` from `main.py`. -/
def IMAGES_DIR : String := "./images"

/-- Python's `s.startswith(pre)`: `pre` is a prefix of `s` (character-wise). -/
def pyStartsWith (s pre : String) : Bool :=
  pre.data.isPrefixOf s.data

/-- Python's `s.split(sep)` for a one-character separator, on character
lists: splitting never yields the empty list (splitting the empty string
gives `[[]]`), and a string without the separator is returned whole. -/
def splitChars (sep : Char) : List Char → List (List Char)
  | [] => [[]]
  | c :: cs =>
    match splitChars sep cs with
    | r :: rs => if c == sep then [] :: r :: rs else (c :: r) :: rs
    | [] => [[c]]

/-- Python's `s.split(sep)` for a one-character separator. -/
def pySplit (s : String) (sep : Char) : List (List Char) :=
  splitChars sep s.data

/-- Lookup by primary key: `session.get(Image, image_id)`. -/
def findById (db : List Image) (image_id : Nat) : Option Image :=
  db.find? (fun i => i.id == image_id)

/-- Row predicate of `filter_by(album=album_id, starred=True)`, used by
`get_starred` and `set_starred`. -/
def starredFilter (album_id : Int) (i : Image) : Bool :=
  i.album == album_id && i.starred

/-- A Python exception escaping the `try` block of `create_image`:
either the `fastapi.HTTPException` raised there, or the `AttributeError`
from calling `.startswith` on a `None` content type. -/
inductive PyExc where
  | httpException (status : Nat) (detail : String)
  | attributeError
deriving Repr, DecidableEq

/-- The `try` block of `create_image` (lines 129-131):
`if not img_upload.content_type.startswith("image"): raise HTTPException(406)`.
A `None` content type makes `.startswith` raise `AttributeError`. -/
def validate_media_type (content_type : Option String) : Except PyExc Unit :=
  match content_type with
  | none => .error .attributeError
  | some ct =>
    if !pyStartsWith ct "image" then
      .error (.httpException 406 "Invalid file type")
    else
      .ok ()

/-- Failure outcomes of `create_image` as observable at the HTTP layer. -/
inductive CreateError where
  /-- `HTTPException(400, "Invalid upload")` raised by the `except Exception`
  handler, which catches every exception from the `try` block — including
  the 406 `HTTPException` raised inside it. -/
  | invalidUpload
  /-- Unhandled `IndexError` from `content_type.split("/")[1]` when the
  media type has no `/`; surfaces as a generic 500. -/
  | indexError
  /-- Unhandled `OSError` from the file write; surfaces as a generic 500. -/
  | storageWriteFailure
deriving Repr, DecidableEq

/-- HTTP status each `CreateError` produces (unhandled exceptions become a
generic 500 server error). -/
def CreateError.status : CreateError → Nat
  | .invalidUpload => 400
  | .indexError => 500
  | .storageWriteFailure => 500

/-- Route `POST /album/{album_id}` (`create_image`).  `tok` stands for the random
`secrets.token_hex(8)` string and `writeOk` for whether the disk write
succeeds.  Returns the state after the request together with the result.

Two behaviors are embedded exactly as the source has them:
* every exception of the `try` block — the 406 `HTTPException` included,
  since `HTTPException` is an `Exception` — is caught by `except Exception`
  and replaced by the 400 `"Invalid upload"` response;
* the starred-image query `where(Image.album == album_id and Image.starred
  is True)` short-circuits in Python: `bool(Image.album == album_id)` is
  `False` (SQLAlchemy compares hashes for `==` expressions), so the `and`
  returns its left operand and the emitted filter is on `album` alone. -/
def create_image (st : ServerState) (album_id : Int) (content_type : Option String)
    (tok : String) (writeOk : Bool) : ServerState × Except CreateError Image :=
  match validate_media_type content_type with
  | .error _ => (st, .error .invalidUpload)
  | .ok () =>
    match pySplit (content_type.getD "") '/' with
    | _ :: file_ext :: _ =>
      let filename := tok ++ "." ++ String.mk file_ext
      let filepath := IMAGES_DIR ++ "/" ++ filename
      -- `session.exec(select(Image).where(...)).first()` with the
      -- short-circuited album-only filter.
      let star := (st.db.find? (fun i => i.album == album_id)).isNone
      let new_image : Image :=
        { id := st.nextId, album := album_id, starred := star, filepath := filepath }
      if writeOk then
        ({ db := st.db ++ [new_image],
           files := st.files ++ [filepath],
           nextId := st.nextId + 1 },
         .ok new_image)
      else
        (st, .error .storageWriteFailure)
    | _ => (st, .error .indexError)

/-- Failure outcome of `delete_image`. -/
inductive DeleteError where
  | imageNotFound
deriving Repr, DecidableEq

/-- Route `DELETE /images/{image_id}` (`delete_image`): 404 if no row has the id,
otherwise delete the row with that primary key and answer `{"ok": true}`
(the `Bool` below).  The file on disk is not touched. -/
def delete_image (st : ServerState) (image_id : Nat) :
    ServerState × Except DeleteError Bool :=
  match findById st.db image_id with
  | none => (st, .error .imageNotFound)
  | some _ =>
    ({ st with db := st.db.filter (fun i => !(i.id == image_id)) }, .ok true)

/-- Projection of `Image` to `ImagePublic`, as FastAPI's `response_model=ImagePublic`
serialization does: keep `album`, `starred`, `id`; drop `filepath`. -/
def toPublic (i : Image) : ImagePublic :=
  { album := i.album, starred := i.starred, id := i.id }

/-- Route `GET /album/{album_id}` (`get_album`):
`select(Image).offset(0).limit(10).where(Image.album == album_id)` —
the rows of the album in table order, at most 10, serialized publicly. -/
def get_album (st : ServerState) (album_id : Int) : List ImagePublic :=
  (((st.db.filter (fun i => i.album == album_id)).drop 0).take 10).map toPublic

/-- Failure outcome of `get_starred`. -/
inductive GetStarredError where
  | noStarredImage
deriving Repr, DecidableEq

/-- Media type reconstructed from a filepath in `get_starred`:
`image/<ext>` with `<ext>` the text after the last `.` of the path
(`file_ext = img_entry.filepath.split(".")[-1]`). -/
def mediaTypeFromPath (filepath : String) : String :=
  "image/" ++ String.mk ((pySplit filepath '.').getLastD [])

/-- Route `GET /starred/{album_id}` (`get_starred`): find the first row with
`album == album_id` and `starred == True` (here `filter_by` combines the
two conditions correctly); 404 if none; otherwise serve the file at its
`filepath` with the media type rebuilt from the path's extension. -/
def get_starred (st : ServerState) (album_id : Int) :
    Except GetStarredError (String × String) :=
  match st.db.find? (starredFilter album_id) with
  | none => .error .noStarredImage
  | some img_entry =>
    .ok (img_entry.filepath, mediaTypeFromPath img_entry.filepath)

/-- Failure outcomes of `set_starred`. -/
inductive SetStarredError where
  /-- `HTTPException(404, "Image not found")`: the id does not exist or the
  row's album differs from the path's album. -/
  | imageNotFound
  /-- Unhandled `AttributeError`: `results.first()` returned `None` and the
  code calls `prev_starred.sqlmodel_update(...)` on it unconditionally;
  surfaces as a generic 500. -/
  | noneAttributeError
deriving Repr, DecidableEq

/-- Effect on one row of updating the `starred` column of the row with
primary key `target_id`: the row is rewritten when its key matches and is
untouched otherwise. -/
def setStar (target_id : Nat) (v : Bool) (i : Image) : Image :=
  if i.id == target_id then { i with starred := v } else i

/-- Update of the `starred` column of the row with the given primary key
(a `sqlmodel_update` + `session.commit` pair in the source). -/
def updateStarred (db : List Image) (target_id : Nat) (v : Bool) : List Image :=
  db.map (setStar target_id v)

/-- Route `PATCH /starred/{album_id}` (`set_starred`): load the target by id and
check its album; load the currently starred row of the album; unset that
row's flag (without any `None` check, hence the `AttributeError` branch)
and then set the target's flag. -/
def set_starred (st : ServerState) (album_id : Int) (image_id : Nat) :
    ServerState × Except SetStarredError Unit :=
  match findById st.db image_id with
  | none => (st, .error .imageNotFound)
  | some image =>
    if image.album ≠ album_id then
      (st, .error .imageNotFound)
    else
      match st.db.find? (starredFilter album_id) with
      | none => (st, .error .noneAttributeError)
      | some prev_starred =>
        let db1 := updateStarred st.db prev_starred.id false
        let db2 := updateStarred db1 image.id true
        ({ st with db := db2 }, .ok ())

/-- Invariant stated by the spec: at most one image of an album is starred,
phrased as any two starred rows of the album being the same row. -/
def atMostOneStarred (db : List Image) (album_id : Int) : Prop :=
  ∀ r ∈ db, ∀ s ∈ db,
    r.album = album_id → s.album = album_id →
    r.starred = true → s.starred = true → r = s

instance (db : List Image) (album_id : Int) : Decidable (atMostOneStarred db album_id) := by
  unfold atMostOneStarred
  infer_instance

end ImageService

namespace ImageService

/-! ## Helper lemmas -/

theorem setStar_id (t : Nat) (v : Bool) (i : Image) : (setStar t v i).id = i.id := by
  unfold setStar
  split <;> rfl

theorem setStar_album (t : Nat) (v : Bool) (i : Image) :
    (setStar t v i).album = i.album := by
  unfold setStar
  split <;> rfl

theorem setStar_filepath (t : Nat) (v : Bool) (i : Image) :
    (setStar t v i).filepath = i.filepath := by
  unfold setStar
  split <;> rfl

theorem setStar_of_ne (t : Nat) (v : Bool) (i : Image) (h : i.id ≠ t) :
    setStar t v i = i := by
  unfold setStar
  simp [h]

theorem setStar_of_eq (t : Nat) (v : Bool) (i : Image) (h : i.id = t) :
    setStar t v i = { i with starred := v } := by
  unfold setStar
  simp [h]

theorem starredFilter_iff (album_id : Int) (i : Image) :
    starredFilter album_id i = true ↔ i.album = album_id ∧ i.starred = true := by
  simp [starredFilter]

theorem eq_of_mem_of_id_eq {db : List Image} (hnd : (db.map Image.id).Nodup)
    {r s : Image} (hr : r ∈ db) (hs : s ∈ db) (h : r.id = s.id) : r = s :=
  List.inj_on_of_nodup_map hnd hr hs h

theorem mem_get_album {st : ServerState} {album_id : Int} {p : ImagePublic}
    (hp : p ∈ get_album st album_id) :
    ∃ i, i ∈ st.db ∧ i.album = album_id ∧ p = toPublic i := by
  simp only [get_album, List.drop_zero, List.mem_map] at hp
  obtain ⟨i, hi, hip⟩ := hp
  have h1 := List.mem_of_mem_take hi
  have h2 := List.mem_filter.mp h1
  exact ⟨i, h2.1, by simpa using h2.2, hip.symm⟩

/-- Successful `set_starred` inverted: the target row exists in the album,
some row passed the starred filter, and the new table is the old one with
that row unset and then the target set. -/
theorem set_starred_ok_inv {st st' : ServerState} {album_id : Int} {image_id : Nat}
    (hok : set_starred st album_id image_id = (st', .ok ())) :
    ∃ image prev,
      findById st.db image_id = some image ∧
      image.album = album_id ∧
      st.db.find? (starredFilter album_id) = some prev ∧
      st'.db = (st.db.map (setStar prev.id false)).map (setStar image.id true) ∧
      st'.files = st.files ∧ st'.nextId = st.nextId := by
  cases hfb : findById st.db image_id with
  | none => simp [set_starred, hfb] at hok
  | some image =>
    by_cases halb : image.album = album_id
    · cases hps : st.db.find? (starredFilter album_id) with
      | none => simp [set_starred, hfb, halb, hps] at hok
      | some prev =>
        simp only [set_starred, hfb, halb, hps, updateStarred, ne_eq,
          not_true_eq_false, if_false, Prod.mk.injEq] at hok
        refine ⟨image, prev, rfl, halb, rfl, ?_, ?_, ?_⟩ <;>
          rw [← hok.1]
    · simp [set_starred, hfb, halb] at hok

end ImageService

namespace ImageService

/-! ## Claim theorems -/

/-- C1 (code bug): the spec claims a new upload is starred iff the album
has no starred image yet.  The source combines the two filter conditions
with Python `and`, which short-circuits to the album-only condition, so an
upload into an album holding one unstarred image comes out with
`starred = false` even though no image of the album is starred. -/
theorem c1_initial_starred_code_bug :
    (∀ r ∈ ({ db := [{ id := 1, album := 1, starred := false, filepath := "./images/aa.jpeg" }],
              files := ["./images/aa.jpeg"], nextId := 2 } : ServerState).db,
        r.starred = false) ∧
    (create_image
        { db := [{ id := 1, album := 1, starred := false, filepath := "./images/aa.jpeg" }],
          files := ["./images/aa.jpeg"], nextId := 2 }
        1 (some "image/jpeg") "bb" true).2 =
      .ok { id := 2, album := 1, starred := false, filepath := "./images/bb.jpeg" } := by
  decide

/-- C2 (code bug): the spec claims a non-`image` media type yields HTTP 406
and only an absent media type yields 400.  In the source the 406
`HTTPException` is raised inside the `try` block and `HTTPException` is an
`Exception`, so `except Exception` catches it and answers 400 instead; no
row and no file are created either way (the state is returned unchanged). -/
theorem c2_text_plain_gives_400_not_406 :
    create_image { db := [], files := [], nextId := 1 } 7 (some "text/plain") "ab" true =
      ({ db := [], files := [], nextId := 1 }, .error .invalidUpload) ∧
    CreateError.status .invalidUpload = 400 ∧
    validate_media_type (some "text/plain") =
      .error (.httpException 406 "Invalid file type") := by
  decide

/-- C3 (code bug): the spec claims `setStarred` succeeds when the album has
no starred image, unsetting only if a previously starred row exists.  The
source calls `prev_starred.sqlmodel_update(...)` without checking that
`results.first()` returned a row, so on an album whose images are all
unstarred the call dies with an unhandled `AttributeError` instead of
succeeding; the state is unchanged. -/
theorem c3_set_starred_crashes_without_starred_row :
    set_starred
        { db := [{ id := 1, album := 5, starred := false, filepath := "./images/a.jpg" }],
          files := ["./images/a.jpg"], nextId := 2 } 5 1 =
      ({ db := [{ id := 1, album := 5, starred := false, filepath := "./images/a.jpg" }],
         files := ["./images/a.jpg"], nextId := 2 },
       .error .noneAttributeError) := by
  decide

/-- C9: a media type that begins with `image` but has no `/` (such as
`imagedata`) passes validation, and `content_type.split("/")[1]` then
raises an unhandled `IndexError`: the request neither succeeds nor ends in
the documented 406/400 responses (the error surfaces as a 500), and the
state — rows and files — is unchanged. -/
theorem c9_slashless_image_media_type_index_error (st : ServerState) (album_id : Int)
    (tok : String) (writeOk : Bool) (ct : String)
    (h1 : pyStartsWith ct "image" = true)
    (h2 : (pySplit ct '/').length = 1) :
    create_image st album_id (some ct) tok writeOk = (st, .error .indexError) ∧
    CreateError.status .indexError = 500 := by
  refine ⟨?_, rfl⟩
  have hv : validate_media_type (some ct) = .ok () := by
    simp [validate_media_type, h1]
  cases hsp : pySplit ct '/' with
  | nil => rw [hsp] at h2; simp at h2
  | cons hd tl =>
    cases tl with
    | nil => simp [create_image, hv, hsp]
    | cons b t => rw [hsp] at h2; simp at h2

/-- C5: with a valid media type, a failing disk write makes `create_image`
fail (the unhandled `OSError` standing for `StorageWriteFailure`) with the
whole state — in particular the database table — unchanged, so no row ever
points at a missing file; conversely any successful upload happened with
`writeOk = true` and its row's filepath is present on disk. -/
theorem c5_write_before_persist (st : ServerState) (album_id : Int) (ct tok : String)
    (h1 : pyStartsWith ct "image" = true)
    (h2 : 2 ≤ (pySplit ct '/').length) :
    create_image st album_id (some ct) tok false = (st, .error .storageWriteFailure) ∧
    (∀ w st' img, create_image st album_id (some ct) tok w = (st', .ok img) →
      w = true ∧ img.filepath ∈ st'.files ∧ img ∈ st'.db) := by
  have hv : validate_media_type (some ct) = .ok () := by
    simp [validate_media_type, h1]
  cases hsp : pySplit ct '/' with
  | nil => rw [hsp] at h2; simp at h2
  | cons hd tl =>
    cases tl with
    | nil => rw [hsp] at h2; simp at h2
    | cons ext rest =>
      constructor
      · simp [create_image, hv, hsp]
      · intro w st' img h
        cases w with
        | false => simp [create_image, hv, hsp] at h
        | true =>
          simp only [create_image, hv, hsp, Option.getD_some, if_true,
            Prod.mk.injEq, Except.ok.injEq] at h
          obtain ⟨hst', himg⟩ := h
          subst hst'
          subst himg
          refine ⟨rfl, ?_, ?_⟩
          · exact List.mem_append_right _ (List.mem_singleton.mpr rfl)
          · exact List.mem_append_right _ (List.mem_singleton.mpr rfl)

/-- Witness for C5 at the concrete media type `image/png`. -/
theorem c5_write_before_persist_witness :
    pyStartsWith "image/png" "image" = true ∧
    2 ≤ (pySplit "image/png" '/').length ∧
    create_image { db := [], files := [], nextId := 1 } 4 (some "image/png") "cc" false =
      ({ db := [], files := [], nextId := 1 }, .error .storageWriteFailure) :=
  ⟨by decide, by decide,
    (c5_write_before_persist { db := [], files := [], nextId := 1 } 4 "image/png" "cc"
      (by decide) (by decide)).1⟩

/-- C6: when an album has a (unique) starred image, `get_starred` answers
that image's filepath with media type `image/<ext>`, the extension taken
from the stored filepath; when no image of the album is starred — in
particular when the album is empty — it fails with the 404
`NoStarredImage` error. -/
theorem c6_get_starred_spec (st : ServerState) (album_id : Int) :
    (∀ img, img ∈ st.db → img.album = album_id → img.starred = true →
      (∀ r ∈ st.db, r.album = album_id → r.starred = true → r = img) →
      get_starred st album_id = .ok (img.filepath, mediaTypeFromPath img.filepath)) ∧
    ((∀ r ∈ st.db, r.album = album_id → r.starred = false) →
      get_starred st album_id = .error .noStarredImage) := by
  constructor
  · intro img hmem ha hs huniq
    have hsome : (st.db.find? (starredFilter album_id)).isSome := by
      rw [List.find?_isSome]
      exact ⟨img, hmem, (starredFilter_iff album_id img).mpr ⟨ha, hs⟩⟩
    obtain ⟨r, hr⟩ := Option.isSome_iff_exists.mp hsome
    have hpr := (starredFilter_iff album_id r).mp (List.find?_some hr)
    have hrm := List.mem_of_find?_eq_some hr
    have hri : r = img := huniq r hrm hpr.1 hpr.2
    subst hri
    simp [get_starred, hr]
  · intro hall
    have hnone : st.db.find? (starredFilter album_id) = none := by
      rw [List.find?_eq_none]
      intro r hrm hcontra
      have hconj := (starredFilter_iff album_id r).mp hcontra
      have := hall r hrm hconj.1
      rw [this] at hconj
      exact Bool.false_ne_true hconj.2
    simp [get_starred, hnone]

/-- Witness for C6: an album with one starred image and the empty album. -/
theorem c6_get_starred_spec_witness :
    get_starred
        { db := [{ id := 1, album := 5, starred := true, filepath := "./images/a.jpg" }],
          files := ["./images/a.jpg"], nextId := 2 } 5 =
      .ok ("./images/a.jpg", mediaTypeFromPath "./images/a.jpg") ∧
    mediaTypeFromPath "./images/a.jpg" = "image/jpg" ∧
    get_starred { db := [], files := [], nextId := 1 } 9 = .error .noStarredImage :=
  ⟨(c6_get_starred_spec
      { db := [{ id := 1, album := 5, starred := true, filepath := "./images/a.jpg" }],
        files := ["./images/a.jpg"], nextId := 2 } 5).1
      { id := 1, album := 5, starred := true, filepath := "./images/a.jpg" }
      (by decide) rfl rfl (by decide),
   by decide,
   (c6_get_starred_spec { db := [], files := [], nextId := 1 } 9).2 (by decide)⟩

/-- C7: `delete_image` fails with the 404 `ImageNotFound` error exactly
when no row carries the id (and then changes nothing); on success it
answers `ok = true`, removes precisely the rows with that id while every
other row and all files on disk stay, a subsequent `findById` is absent
and `get_album` of any album no longer lists the id. -/
theorem c7_delete_image_spec (st : ServerState) (image_id : Nat) :
    ((delete_image st image_id).2 = .error .imageNotFound ↔ ∀ r ∈ st.db, r.id ≠ image_id) ∧
    ((∀ r ∈ st.db, r.id ≠ image_id) → delete_image st image_id = (st, .error .imageNotFound)) ∧
    (∀ img, findById st.db image_id = some img →
      ∃ st', delete_image st image_id = (st', .ok true) ∧
        st'.files = st.files ∧
        (∀ r ∈ st'.db, r ∈ st.db ∧ r.id ≠ image_id) ∧
        (∀ r ∈ st.db, r.id ≠ image_id → r ∈ st'.db) ∧
        findById st'.db image_id = none ∧
        (∀ a : Int, ∀ p ∈ get_album st' a, p.id ≠ image_id)) := by
  cases hfb : findById st.db image_id with
  | none =>
    have hall : ∀ r ∈ st.db, r.id ≠ image_id := by
      intro r hr
      have := List.find?_eq_none.mp hfb r hr
      simpa using this
    refine ⟨?_, fun _ => by simp [delete_image, hfb], ?_⟩
    · constructor
      · intro _
        exact hall
      · intro _
        simp [delete_image, hfb]
    · intro img h
      exact Option.noConfusion h
  | some img0 =>
    have hmem := List.mem_of_find?_eq_some hfb
    have hid : img0.id = image_id := by simpa using List.find?_some hfb
    have heq : delete_image st image_id =
        ({ st with db := st.db.filter (fun i => !(i.id == image_id)) }, .ok true) := by
      simp [delete_image, hfb]
    refine ⟨?_, ?_, ?_⟩
    · rw [heq]
      exact iff_of_false (by simp) (fun hall => hall img0 hmem hid)
    · intro hall
      exact absurd hid (hall img0 hmem)
    · intro img _
      refine ⟨_, heq, rfl, ?_, ?_, ?_, ?_⟩
      · intro r hr
        have hrf := List.mem_filter.mp hr
        exact ⟨hrf.1, by simpa using hrf.2⟩
      · intro r hr hne
        exact List.mem_filter.mpr ⟨hr, by simpa using hne⟩
      · rw [findById, List.find?_eq_none]
        intro r hr
        have := (List.mem_filter.mp hr).2
        simpa using this
      · intro a p hp
        obtain ⟨i, hi, _, hpi⟩ := mem_get_album hp
        have hif := (List.mem_filter.mp hi).2
        rw [hpi]
        simpa [toPublic] using hif

/-- Witness for C7: deleting a present id and a missing id. -/
theorem c7_delete_image_spec_witness :
    (∀ r ∈ ({ db := [], files := [], nextId := 1 } : ServerState).db, r.id ≠ 9) ∧
    delete_image { db := [], files := [], nextId := 1 } 9 =
      ({ db := [], files := [], nextId := 1 }, .error .imageNotFound) :=
  ⟨by decide,
    (c7_delete_image_spec { db := [], files := [], nextId := 1 } 9).2.1 (by decide)⟩

/-- C8: `get_album` answers at most 10 records, each for a row of the
requested album, and each record is exactly the public projection —
id, album, starred, no filepath — of a stored row. -/
theorem c8_get_album_spec (st : ServerState) (album_id : Int) :
    (get_album st album_id).length ≤ 10 ∧
    (∀ p ∈ get_album st album_id, p.album = album_id) ∧
    (∀ p ∈ get_album st album_id, ∃ i, i ∈ st.db ∧ i.album = album_id ∧ p = toPublic i) := by
  refine ⟨?_, ?_, ?_⟩
  · simp only [get_album, List.drop_zero, List.length_map]
    exact List.length_take_le 10 _
  · intro p hp
    obtain ⟨i, _, ha, hpi⟩ := mem_get_album hp
    rw [hpi]
    exact ha
  · intro p hp
    exact mem_get_album hp

/-- Witness for C8 on a concrete two-row album. -/
theorem c8_get_album_spec_witness :
    (get_album
        { db := [{ id := 1, album := 3, starred := true, filepath := "./images/a.jpeg" },
                 { id := 2, album := 3, starred := false, filepath := "./images/b.jpeg" },
                 { id := 3, album := 8, starred := true, filepath := "./images/c.jpeg" }],
          files := [], nextId := 4 } 3).length ≤ 10 ∧
    (toPublic { id := 1, album := 3, starred := true, filepath := "./images/a.jpeg" }).album = 3 :=
  ⟨(c8_get_album_spec
      { db := [{ id := 1, album := 3, starred := true, filepath := "./images/a.jpeg" },
               { id := 2, album := 3, starred := false, filepath := "./images/b.jpeg" },
               { id := 3, album := 8, starred := true, filepath := "./images/c.jpeg" }],
        files := [], nextId := 4 } 3).1,
   (c8_get_album_spec
      { db := [{ id := 1, album := 3, starred := true, filepath := "./images/a.jpeg" },
               { id := 2, album := 3, starred := false, filepath := "./images/b.jpeg" },
               { id := 3, album := 8, starred := true, filepath := "./images/c.jpeg" }],
        files := [], nextId := 4 } 3).2.1
      (toPublic { id := 1, album := 3, starred := true, filepath := "./images/a.jpeg" })
      (by decide)⟩

/-- C4: starting from a state where at most one image of the album is
starred, a successful `set_starred` leaves the target uniquely starred in
the album: the target row is starred, every starred row of the album
carries the target id, the at-most-one-starred invariant still holds, and
`get_starred` answers exactly the target's file. -/
theorem c4_set_starred_invariant (st st' : ServerState) (album_id : Int) (image_id : Nat)
    (hnd : (st.db.map Image.id).Nodup)
    (hamo : atMostOneStarred st.db album_id)
    (hok : set_starred st album_id image_id = (st', .ok ())) :
    (∃ img', findById st'.db image_id = some img' ∧
       img'.starred = true ∧ img'.album = album_id) ∧
    (∀ r ∈ st'.db, r.album = album_id → r.starred = true → r.id = image_id) ∧
    atMostOneStarred st'.db album_id ∧
    (∃ img, findById st.db image_id = some img ∧
       get_starred st' album_id = .ok (img.filepath, mediaTypeFromPath img.filepath)) := by
  obtain ⟨image, prev, hfb, halb, hps, hdb, hfiles, hnext⟩ := set_starred_ok_inv hok
  have himem : image ∈ st.db := List.mem_of_find?_eq_some hfb
  have hiid : image.id = image_id := by simpa using List.find?_some hfb
  have hpm : prev ∈ st.db := List.mem_of_find?_eq_some hps
  have hpf := (starredFilter_iff album_id prev).mp (List.find?_some hps)
  rw [hiid] at hdb
  -- membership in the updated table, both directions
  have hmem_st' : ∀ r' ∈ st'.db,
      ∃ r ∈ st.db, r' = setStar image_id true (setStar prev.id false r) := by
    intro r' hr'
    rw [hdb] at hr'
    obtain ⟨y, hy, hyr⟩ := List.mem_map.mp hr'
    obtain ⟨r, hrm, hry⟩ := List.mem_map.mp hy
    exact ⟨r, hrm, by rw [← hyr, ← hry]⟩
  have hmem_fwd : ∀ r ∈ st.db,
      setStar image_id true (setStar prev.id false r) ∈ st'.db := by
    intro r hrm
    rw [hdb]
    exact List.mem_map_of_mem _ (List.mem_map_of_mem _ hrm)
  -- the transformed target row
  have hFimg_eq : setStar image_id true (setStar prev.id false image) =
      { setStar prev.id false image with starred := true } :=
    setStar_of_eq _ _ _ (by rw [setStar_id, hiid])
  have hFimg_starred : (setStar image_id true (setStar prev.id false image)).starred = true := by
    rw [hFimg_eq]
  have hFimg_album : (setStar image_id true (setStar prev.id false image)).album = album_id := by
    rw [setStar_album, setStar_album, halb]
  have hFimg_id : (setStar image_id true (setStar prev.id false image)).id = image_id := by
    rw [setStar_id, setStar_id, hiid]
  have hFimg_filepath :
      (setStar image_id true (setStar prev.id false image)).filepath = image.filepath := by
    rw [setStar_filepath, setStar_filepath]
  -- every starred row of the album in the new table carries the target id
  have honly : ∀ r' ∈ st'.db, r'.album = album_id → r'.starred = true → r'.id = image_id := by
    intro r' hr' ha' hs'
    obtain ⟨r, hrm, hrF⟩ := hmem_st' r' hr'
    by_contra hne
    have hrid : r'.id = r.id := by rw [hrF, setStar_id, setStar_id]
    have hrne : r.id ≠ image_id := fun h => hne (by rw [hrid, h])
    have houter : setStar image_id true (setStar prev.id false r) = setStar prev.id false r :=
      setStar_of_ne _ _ _ (by rw [setStar_id]; exact hrne)
    by_cases hpid : r.id = prev.id
    · have hr'val : r' = { r with starred := false } := by
        rw [hrF, houter, setStar_of_eq _ _ _ hpid]
      rw [hr'val] at hs'
      exact Bool.false_ne_true hs'
    · have hr'r : r' = r := by
        rw [hrF, houter, setStar_of_ne _ _ _ hpid]
      have hra : r.album = album_id := by rw [← hr'r]; exact ha'
      have hrs : r.starred = true := by rw [← hr'r]; exact hs'
      have : r = prev := hamo r hrm prev hpm hra hpf.1 hrs hpf.2
      exact hpid (by rw [this])
  -- a row of the new table is determined by its id
  have hbyid : ∀ r' ∈ st'.db, r'.id = image_id →
      r' = setStar image_id true (setStar prev.id false image) := by
    intro r' hr' hid'
    obtain ⟨r, hrm, hrF⟩ := hmem_st' r' hr'
    have hrid : r.id = image.id := by
      rw [hiid, ← hid', hrF, setStar_id, setStar_id]
    have : r = image := eq_of_mem_of_id_eq hnd hrm himem hrid
    rw [hrF, this]
  refine ⟨?_, honly, ?_, ?_⟩
  · -- the target row is present and starred
    have hsome : (st'.db.find? (fun i => i.id == image_id)).isSome := by
      rw [List.find?_isSome]
      exact ⟨setStar image_id true (setStar prev.id false image),
        hmem_fwd image himem, by rw [hFimg_id]; exact beq_self_eq_true image_id⟩
    obtain ⟨r', hr'⟩ := Option.isSome_iff_exists.mp hsome
    have hid' : r'.id = image_id := by simpa using List.find?_some hr'
    have hr'mem : r' ∈ st'.db := List.mem_of_find?_eq_some hr'
    have hval := hbyid r' hr'mem hid'
    exact ⟨r', hr', by rw [hval]; exact hFimg_starred, by rw [hval]; exact hFimg_album⟩
  · -- the invariant is preserved
    intro r' hr' s' hs' har has hsr hss
    have h1 := honly r' hr' har hsr
    have h2 := honly s' hs' has hss
    rw [hbyid r' hr' h1, hbyid s' hs' h2]
  · -- get_starred answers the target's file
    have hsome : (st'.db.find? (starredFilter album_id)).isSome := by
      rw [List.find?_isSome]
      exact ⟨setStar image_id true (setStar prev.id false image),
        hmem_fwd image himem,
        (starredFilter_iff _ _).mpr ⟨hFimg_album, hFimg_starred⟩⟩
    obtain ⟨r', hr'⟩ := Option.isSome_iff_exists.mp hsome
    have hprops := (starredFilter_iff album_id r').mp (List.find?_some hr')
    have hr'mem : r' ∈ st'.db := List.mem_of_find?_eq_some hr'
    have hid' : r'.id = image_id := honly r' hr'mem hprops.1 hprops.2
    have hval := hbyid r' hr'mem hid'
    refine ⟨image, hfb, ?_⟩
    simp only [get_starred, hr']
    rw [hval, hFimg_filepath]

/-- Witness for C4: album 3 holds starred row 1 and unstarred row 2, then
row 2 is starred. -/
theorem c4_set_starred_invariant_witness :
    (∃ img', findById
        [{ id := 1, album := 3, starred := false, filepath := "./images/a.jpeg" },
         { id := 2, album := 3, starred := true, filepath := "./images/b.jpeg" }] 2 = some img' ∧
       img'.starred = true ∧ img'.album = 3) ∧
    (∀ r ∈ ([{ id := 1, album := 3, starred := false, filepath := "./images/a.jpeg" },
             { id := 2, album := 3, starred := true, filepath := "./images/b.jpeg" }] : List Image),
       r.album = 3 → r.starred = true → r.id = 2) ∧
    atMostOneStarred
      [{ id := 1, album := 3, starred := false, filepath := "./images/a.jpeg" },
       { id := 2, album := 3, starred := true, filepath := "./images/b.jpeg" }] 3 ∧
    (∃ img, findById
        [{ id := 1, album := 3, starred := true, filepath := "./images/a.jpeg" },
         { id := 2, album := 3, starred := false, filepath := "./images/b.jpeg" }] 2 = some img ∧
       get_starred
         { db := [{ id := 1, album := 3, starred := false, filepath := "./images/a.jpeg" },
                  { id := 2, album := 3, starred := true, filepath := "./images/b.jpeg" }],
           files := ["./images/a.jpeg", "./images/b.jpeg"], nextId := 3 } 3 =
         .ok (img.filepath, mediaTypeFromPath img.filepath)) :=
  c4_set_starred_invariant
    { db := [{ id := 1, album := 3, starred := true, filepath := "./images/a.jpeg" },
             { id := 2, album := 3, starred := false, filepath := "./images/b.jpeg" }],
      files := ["./images/a.jpeg", "./images/b.jpeg"], nextId := 3 }
    { db := [{ id := 1, album := 3, starred := false, filepath := "./images/a.jpeg" },
             { id := 2, album := 3, starred := true, filepath := "./images/b.jpeg" }],
      files := ["./images/a.jpeg", "./images/b.jpeg"], nextId := 3 }
    3 2 (by decide) (by decide) (by decide)

/-- C10: starring the image that is already the album's unique starred
image succeeds and leaves the whole state unchanged: the row unset and the
row set are the same row, so the two writes cancel. -/
theorem c10_set_starred_idempotent (st : ServerState) (album_id : Int) (image_id : Nat)
    (img : Image)
    (hnd : (st.db.map Image.id).Nodup)
    (hfb : findById st.db image_id = some img)
    (ha : img.album = album_id) (hs : img.starred = true)
    (huniq : ∀ r ∈ st.db, r.album = album_id → r.starred = true → r.id = image_id) :
    set_starred st album_id image_id = (st, .ok ()) := by
  have himem : img ∈ st.db := List.mem_of_find?_eq_some hfb
  have hiid : img.id = image_id := by simpa using List.find?_some hfb
  have hsome : (st.db.find? (starredFilter album_id)).isSome := by
    rw [List.find?_isSome]
    exact ⟨img, himem, (starredFilter_iff album_id img).mpr ⟨ha, hs⟩⟩
  obtain ⟨prev, hps⟩ := Option.isSome_iff_exists.mp hsome
  have hpm := List.mem_of_find?_eq_some hps
  have hpf := (starredFilter_iff album_id prev).mp (List.find?_some hps)
  have hpid : prev.id = image_id := huniq prev hpm hpf.1 hpf.2
  have hcancel : ∀ r ∈ st.db, setStar image_id true (setStar image_id false r) = r := by
    intro r hrm
    by_cases hr : r.id = image_id
    · have hreq : r = img := eq_of_mem_of_id_eq hnd hrm himem (by rw [hr, hiid])
      have hsr : r.starred = true := by rw [hreq]; exact hs
      rw [setStar_of_eq image_id false r hr]
      rw [setStar_of_eq image_id true { r with starred := false } hr]
      rw [← hsr]
    · rw [setStar_of_ne image_id false r hr]
      rw [setStar_of_ne image_id true r hr]
  have hdbeq : (st.db.map (setStar image_id false)).map (setStar image_id true) = st.db := by
    rw [List.map_map]
    calc st.db.map (setStar image_id true ∘ setStar image_id false)
        = st.db.map id := List.map_congr_left (fun r hrm => hcancel r hrm)
      _ = st.db := List.map_id _
  simp only [set_starred, hfb, ha, hps, updateStarred, ne_eq, not_true_eq_false, if_false]
  rw [hpid, hiid, hdbeq]

/-- Witness for C10: re-starring the already starred row 1 of album 3. -/
theorem c10_set_starred_idempotent_witness :
    set_starred
        { db := [{ id := 1, album := 3, starred := true, filepath := "./images/a.jpeg" },
                 { id := 2, album := 3, starred := false, filepath := "./images/b.jpeg" }],
          files := ["./images/a.jpeg", "./images/b.jpeg"], nextId := 3 } 3 1 =
      ({ db := [{ id := 1, album := 3, starred := true, filepath := "./images/a.jpeg" },
                { id := 2, album := 3, starred := false, filepath := "./images/b.jpeg" }],
         files := ["./images/a.jpeg", "./images/b.jpeg"], nextId := 3 }, .ok ()) :=
  c10_set_starred_idempotent
    { db := [{ id := 1, album := 3, starred := true, filepath := "./images/a.jpeg" },
             { id := 2, album := 3, starred := false, filepath := "./images/b.jpeg" }],
      files := ["./images/a.jpeg", "./images/b.jpeg"], nextId := 3 }
    3 1 { id := 1, album := 3, starred := true, filepath := "./images/a.jpeg" }
    (by decide) (by decide) rfl rfl (by decide)

/-- Witness for C9 at the concrete media type `imagedata`. -/
theorem c9_slashless_image_media_type_index_error_witness :
    pyStartsWith "imagedata" "image" = true ∧
    (pySplit "imagedata" '/').length = 1 ∧
    create_image { db := [], files := [], nextId := 1 } 3 (some "imagedata") "ab" true =
      ({ db := [], files := [], nextId := 1 }, .error .indexError) ∧
    CreateError.status .indexError = 500 :=
  ⟨by decide, by decide,
    (c9_slashless_image_media_type_index_error
      { db := [], files := [], nextId := 1 } 3 "ab" true "imagedata"
      (by decide) (by decide)).1,
    (c9_slashless_image_media_type_index_error
      { db := [], files := [], nextId := 1 } 3 "ab" true "imagedata"
      (by decide) (by decide)).2⟩

end ImageService
